import Mathlib

/-!
Verification of the remote-pointer layer (`src/windows/ptr/mod.rs` and the
pointer modules it re-exports).

The repository ships `mod.rs`, which declares the submodules `ptr32`, `ptr64`
and `pod` and itself defines the `NativePtr` bridge (conversion with the
host-native `usize`) and the widening `From` conversions from the 32-bit to
the 64-bit pointer types.  The submodule files `ptr32.rs`, `ptr64.rs` and
`pod.rs` are not present; the wrapper types and their integer round-trip,
`offset` and `difference` operations are therefore modelled from the spec
(sections 3, 4.1, 4.2 and 4.3), as marked on each definition below.

Machine integers are modelled as `Nat` with explicit reduction modulo
`2^32` / `2^64` where the Rust code narrows (`as u32`) or where arithmetic
wraps.  The host is 64-bit (`target_pointer_width = "64"`), so `usize`
values range over `Nat` below `2^64` and `address as u64` is the identity,
while `address as u32` reduces modulo `2^32`.  Rust's `as`-cast from `u32`
to `u64` is a zero-extension, hence the widening conversions inject the
32-bit address unchanged.  Signed quantities (`offset` counts, pointer
differences) are `Int`; Rust's signed division truncates toward zero, which
is `Int.tdiv`.
-/

namespace External

/-- Number of values of a `u32`, i.e. `2^32`. -/
def U32_MOD : Nat := 4294967296

/-- Number of values of a `u64` (and of `usize` on the 64-bit host), i.e. `2^64`. -/
def U64_MOD : Nat := 18446744073709551616

/-- Modelled from the spec: `ptr32.rs` is missing from the sources.  A raw
32-bit remote pointer "wraps exactly one address value" (spec section 3), the
address value being a fixed-width 32-bit unsigned integer.  The `Nat` field
stands for the `u32`; a well-formed value has `address < U32_MOD`. -/
structure RawPtr32 where
  address : Nat

/-- Modelled from the spec: `ptr64.rs` is missing from the sources.  A raw
64-bit remote pointer wrapping one `u64` address value. -/
structure RawPtr64 where
  address : Nat

/-- Modelled from the spec: `ptr32.rs` is missing from the sources.  A typed
32-bit remote pointer: one `u32` address value plus a phantom compile-time
association with the payload type `T` (spec section 3); `T` occupies no
runtime storage. -/
structure TypePtr32 (T : Type) where
  address : Nat

/-- Modelled from the spec: `ptr64.rs` is missing from the sources.  A typed
64-bit remote pointer: one `u64` address value plus a phantom payload type. -/
structure TypePtr64 (T : Type) where
  address : Nat

/-- Modelled from the spec: `pod.rs` is missing from the sources.  The Pod
capability is a compile-time marker asserting the payload type has a fixed,
statically known size (spec sections 3 and 4.3); it is what makes
`size_of(T)` available to the size-aware typed-pointer operations. -/
class Pod (T : Type) where
  size : Nat

/-- Modelled from the spec: `RawPtr32::from(u32)` / `from_integer` (spec
section 4.1).  Constructing from the underlying integer; the reduction modulo
`U32_MOD` embeds the `u32` domain of the Rust parameter (it is the identity
on every well-formed `u32` value). -/
def RawPtr32.from_u32 (a : Nat) : RawPtr32 :=
  ⟨a % U32_MOD⟩

/-- Modelled from the spec: `RawPtr32::into_u32` / `into_integer` (spec
section 4.1): extracting the underlying integer. -/
def RawPtr32.into_u32 (p : RawPtr32) : Nat :=
  p.address

/-- Modelled from the spec: `RawPtr64::from(u64)` / `from_integer`. -/
def RawPtr64.from_u64 (a : Nat) : RawPtr64 :=
  ⟨a % U64_MOD⟩

/-- Modelled from the spec: `RawPtr64::into_u64` / `into_integer`. -/
def RawPtr64.into_u64 (p : RawPtr64) : Nat :=
  p.address

/-- Modelled from the spec: `TypePtr32::<T>::from(u32)` / `from_integer`,
a pass-through of the raw-pointer construction (spec section 4.2). -/
def TypePtr32.from_u32 (T : Type) (a : Nat) : TypePtr32 T :=
  ⟨a % U32_MOD⟩

/-- Modelled from the spec: `TypePtr32::<T>::into_u32` / `into_integer`. -/
def TypePtr32.into_u32 {T : Type} (p : TypePtr32 T) : Nat :=
  p.address

/-- Modelled from the spec: `TypePtr64::<T>::from(u64)` / `from_integer`. -/
def TypePtr64.from_u64 (T : Type) (a : Nat) : TypePtr64 T :=
  ⟨a % U64_MOD⟩

/-- Modelled from the spec: `TypePtr64::<T>::into_u64` / `into_integer`. -/
def TypePtr64.into_u64 {T : Type} (p : TypePtr64 T) : Nat :=
  p.address

/-- Modelled from the spec: type-erasing conversion `into_raw` of a 32-bit
typed pointer (spec section 4.2), a lossless pass-through of the address. -/
def TypePtr32.into_raw {T : Type} (p : TypePtr32 T) : RawPtr32 :=
  ⟨p.address⟩

/-- Modelled from the spec: type-erasing conversion `into_raw` of a 64-bit
typed pointer. -/
def TypePtr64.into_raw {T : Type} (p : TypePtr64 T) : RawPtr64 :=
  ⟨p.address⟩

/-- Modelled from the spec: `RawPtr32::offset` (spec section 4.1) adds `n`
bytes to the address; the arithmetic wraps modulo `2^32` and never signals
failure.  `Int.emod` with the positive modulus yields the canonical
representative in `[0, U32_MOD)`. -/
def RawPtr32.offset (p : RawPtr32) (n : Int) : RawPtr32 :=
  ⟨(((p.address : Int) + n) % (U32_MOD : Int)).toNat⟩

/-- Modelled from the spec: `RawPtr64::offset`, wrapping modulo `2^64`. -/
def RawPtr64.offset (p : RawPtr64) (n : Int) : RawPtr64 :=
  ⟨(((p.address : Int) + n) % (U64_MOD : Int)).toNat⟩

/-- Modelled from the spec: `RawPtr32::difference` (spec section 4.1): the
byte distance between two raw pointers of the same width, as a signed integer
wide enough to represent the full range. -/
def RawPtr32.difference (p other : RawPtr32) : Int :=
  (p.address : Int) - (other.address : Int)

/-- Modelled from the spec: `RawPtr64::difference`. -/
def RawPtr64.difference (p other : RawPtr64) : Int :=
  (p.address : Int) - (other.address : Int)

/-- Modelled from the spec: `TypePtr32::<T>::offset` (spec section 4.2),
`T : Pod` required: advances the address by `n * size_of(T)` bytes with the
same wraparound policy as the raw-pointer offset. -/
def TypePtr32.offset {T : Type} [Pod T] (p : TypePtr32 T) (n : Int) : TypePtr32 T :=
  ⟨(((p.address : Int) + n * (Pod.size T : Int)) % (U32_MOD : Int)).toNat⟩

/-- Modelled from the spec: `TypePtr64::<T>::offset`. -/
def TypePtr64.offset {T : Type} [Pod T] (p : TypePtr64 T) (n : Int) : TypePtr64 T :=
  ⟨(((p.address : Int) + n * (Pod.size T : Int)) % (U64_MOD : Int)).toNat⟩

/-- Modelled from the spec: `TypePtr32::<T>::difference` (spec section 4.2),
`T : Pod` required: the byte difference divided by `size_of(T)` with
truncating integer division (`Int.tdiv` truncates toward zero, as Rust signed
division does). -/
def TypePtr32.difference {T : Type} [Pod T] (p other : TypePtr32 T) : Int :=
  Int.tdiv ((p.address : Int) - (other.address : Int)) (Pod.size T : Int)

/-- Modelled from the spec: `TypePtr64::<T>::difference`. -/
def TypePtr64.difference {T : Type} [Pod T] (p other : TypePtr64 T) : Int :=
  Int.tdiv ((p.address : Int) - (other.address : Int)) (Pod.size T : Int)

/-- `NativePtr for RawPtr64` (mod.rs lines 62-70, `target_pointer_width =
"64"`): `into_usize` is `self.into_u64() as usize`, the identity on the
64-bit host. -/
def RawPtr64.into_usize (p : RawPtr64) : Nat :=
  p.into_u64

/-- `NativePtr for RawPtr64` (mod.rs lines 62-70): `from_usize` is
`RawPtr64::from(address as u64)`; `usize as u64` is the identity on the
64-bit host. -/
def RawPtr64.from_usize (a : Nat) : RawPtr64 :=
  RawPtr64.from_u64 a

/-- `NativePtr for TypePtr64<T>` (mod.rs lines 71-79). -/
def TypePtr64.into_usize {T : Type} (p : TypePtr64 T) : Nat :=
  p.into_u64

/-- `NativePtr for TypePtr64<T>` (mod.rs lines 71-79). -/
def TypePtr64.from_usize (T : Type) (a : Nat) : TypePtr64 T :=
  TypePtr64.from_u64 T a

/-- `NativePtr for RawPtr32` (mod.rs lines 81-88): `into_usize` is
`self.into_u32() as usize`, a zero-extension into the 64-bit `usize`. -/
def RawPtr32.into_usize (p : RawPtr32) : Nat :=
  p.into_u32

/-- `NativePtr for RawPtr32` (mod.rs lines 81-88): `from_usize` is
`RawPtr32::from(address as u32)`; on the 64-bit host the `as u32` cast
reduces the `usize` modulo `2^32`. -/
def RawPtr32.from_usize (a : Nat) : RawPtr32 :=
  RawPtr32.from_u32 (a % U32_MOD)

/-- `NativePtr for TypePtr32<T>` (mod.rs lines 89-96). -/
def TypePtr32.into_usize {T : Type} (p : TypePtr32 T) : Nat :=
  p.into_u32

/-- `NativePtr for TypePtr32<T>` (mod.rs lines 89-96): `from_usize` is
`TypePtr32::from(address as u32)`. -/
def TypePtr32.from_usize (T : Type) (a : Nat) : TypePtr32 T :=
  TypePtr32.from_u32 T (a % U32_MOD)

/-- `From<RawPtr32> for RawPtr64` (mod.rs lines 98-102): the widening
conversion is `RawPtr64::from(ptr.into_u32() as u64)`; the `u32 as u64` cast
is a zero-extension. -/
def RawPtr32.widen (p : RawPtr32) : RawPtr64 :=
  RawPtr64.from_u64 p.into_u32

/-- `From<TypePtr32<T>> for TypePtr64<T>` (mod.rs lines 103-107): widening a
typed pointer is `TypePtr64::from(ptr.into_u32() as u64)`, with the payload
type `T` carried over unchanged. -/
def TypePtr32.widen {T : Type} (p : TypePtr32 T) : TypePtr64 T :=
  TypePtr64.from_u64 T p.into_u32

/-- A sample payload type of size 4 (standing for a Pod type such as `u32`),
used to evaluate the size-aware typed operations on concrete inputs. -/
structure Elem4 where

instance : Pod Elem4 := ⟨4⟩

/-- Helper: widening a well-formed 32-bit address yields exactly that address
as the underlying 64-bit integer. -/
theorem RawPtr32.widen_from_u32_into_u64 (a : Nat) (h : a < U32_MOD) :
    ((RawPtr32.from_u32 a).widen).into_u64 = a := by
  simp only [RawPtr32.from_u32, RawPtr32.widen, RawPtr32.into_u32, RawPtr64.from_u64,
    RawPtr64.into_u64, U32_MOD, U64_MOD] at *
  omega

/-- Helper: the address stored by a raw 32-bit offset, as an integer, is the
canonical representative of the byte sum modulo `2^32`. -/
theorem RawPtr32.offset_address32 (p : RawPtr32) (n : Int) :
    (((p.offset n).address : Nat) : Int) = ((p.address : Int) + n) % (U32_MOD : Int) := by
  simp only [RawPtr32.offset]
  exact Int.toNat_of_nonneg (Int.emod_nonneg _ (by norm_num [U32_MOD]))

/-- Helper: the address stored by a raw 64-bit offset, as an integer. -/
theorem RawPtr64.offset_address64 (p : RawPtr64) (n : Int) :
    (((p.offset n).address : Nat) : Int) = ((p.address : Int) + n) % (U64_MOD : Int) := by
  simp only [RawPtr64.offset]
  exact Int.toNat_of_nonneg (Int.emod_nonneg _ (by norm_num [U64_MOD]))

/-- Claim C1, counterexample: on the 64-bit host, `RawPtr32::from_usize`
silently truncates: the valid `usize` value `2^32` does not survive the
round-trip through `from_usize`/`into_usize` (it comes back as `0`). -/
theorem C1_native_bridge_counterexample :
    ¬ ((RawPtr32.from_usize 4294967296).into_usize = 4294967296) := by
  decide

/-- Claim C1, amended: on the 64-bit host the native-width bridge of the
32-bit pointer types reduces the `usize` modulo `2^32` (the `as u32` cast in
`NativePtr::from_usize`, mod.rs lines 85-87 and 93-95), so
`from_usize(a).into_usize() == a % 2^32`; the round-trip preserves `a`
exactly when `a < 2^32`. -/
theorem C1_native_bridge_truncates (T : Type) (a : Nat) :
    (RawPtr32.from_usize a).into_usize = a % U32_MOD ∧
      (TypePtr32.from_usize T a).into_usize = a % U32_MOD := by
  simp only [RawPtr32.from_usize, RawPtr32.from_u32, RawPtr32.into_usize, RawPtr32.into_u32,
    TypePtr32.from_usize, TypePtr32.from_u32, TypePtr32.into_usize, TypePtr32.into_u32, U32_MOD]
  omega

/-- Claim C2: widening a 32-bit raw pointer to a 64-bit raw pointer
(`From<RawPtr32> for RawPtr64`, mod.rs lines 98-102) is a zero-extension:
for every 32-bit address `a`, the widened pointer's underlying 64-bit
integer equals `a` itself, so the upper 32 bits are zero even when the high
bit of `a` is set. -/
theorem C2_widen_zero_extends (a : Nat) (h : a < U32_MOD) :
    ((RawPtr32.from_u32 a).widen).into_u64 = a :=
  RawPtr32.widen_from_u32_into_u64 a h

/-- Witness for C2 at the spec's own example: widening `0x12345678` yields
`0x0000000012345678`, and widening the high-bit-set address `0x80000000`
yields `0x0000000080000000`. -/
theorem C2_witness :
    (0x12345678 < U32_MOD ∧
      ((RawPtr32.from_u32 0x12345678).widen).into_u64 = 0x0000000012345678) ∧
    (0x80000000 < U32_MOD ∧
      ((RawPtr32.from_u32 0x80000000).widen).into_u64 = 0x0000000080000000) :=
  ⟨⟨by decide, C2_widen_zero_extends 0x12345678 (by decide)⟩,
   ⟨by decide, C2_widen_zero_extends 0x80000000 (by decide)⟩⟩

/-- Claim C3: widening of 32-bit raw pointers is order-preserving and
injective: for 32-bit addresses `a < b` the widened 64-bit values satisfy
`widen(a) < widen(b)`, and equal widened pointers come from equal
addresses. -/
theorem C3_widen_injective_monotone (a b : Nat) (ha : a < U32_MOD) (hb : b < U32_MOD) :
    (a < b → ((RawPtr32.from_u32 a).widen).into_u64 < ((RawPtr32.from_u32 b).widen).into_u64) ∧
      ((RawPtr32.from_u32 a).widen = (RawPtr32.from_u32 b).widen → a = b) := by
  constructor
  · intro hab
    rw [RawPtr32.widen_from_u32_into_u64 a ha, RawPtr32.widen_from_u32_into_u64 b hb]
    exact hab
  · intro h
    have h2 := congrArg RawPtr64.into_u64 h
    rw [RawPtr32.widen_from_u32_into_u64 a ha, RawPtr32.widen_from_u32_into_u64 b hb] at h2
    exact h2

/-- Witness for C3 at `a = 3`, `b = 5`. -/
theorem C3_witness :
    3 < U32_MOD ∧ 5 < U32_MOD ∧
      ((3 < 5 → ((RawPtr32.from_u32 3).widen).into_u64 < ((RawPtr32.from_u32 5).widen).into_u64) ∧
        ((RawPtr32.from_u32 3).widen = (RawPtr32.from_u32 5).widen → 3 = 5)) :=
  ⟨by decide, by decide, C3_widen_injective_monotone 3 5 (by decide) (by decide)⟩

/-- Claim C4: typed-pointer widening (`From<TypePtr32<T>> for TypePtr64<T>`,
mod.rs lines 103-107) preserves the payload type `T` — visible in the Lean
type of `TypePtr32.widen` — and its resulting 64-bit address agrees with the
raw widening of the type-erased pointer and equals the zero-extension of the
32-bit address. -/
theorem C4_typed_widen_mirrors_raw (T : Type) (p : TypePtr32 T) (h : p.into_u32 < U32_MOD) :
    (p.widen).into_u64 = ((p.into_raw).widen).into_u64 ∧ (p.widen).into_u64 = p.into_u32 := by
  refine ⟨rfl, ?_⟩
  simp only [TypePtr32.widen, TypePtr32.into_u32, TypePtr64.from_u64, TypePtr64.into_u64,
    U32_MOD, U64_MOD] at *
  omega

/-- Witness for C4 at `T = Elem4` and the typed pointer at address 7. -/
theorem C4_witness :
    (TypePtr32.from_u32 Elem4 7).into_u32 < U32_MOD ∧
      (((TypePtr32.from_u32 Elem4 7).widen).into_u64 =
          (((TypePtr32.from_u32 Elem4 7).into_raw).widen).into_u64 ∧
        ((TypePtr32.from_u32 Elem4 7).widen).into_u64 = (TypePtr32.from_u32 Elem4 7).into_u32) :=
  ⟨by decide, C4_typed_widen_mirrors_raw Elem4 (TypePtr32.from_u32 Elem4 7) (by decide)⟩

/-- Claim C5: constructing a raw pointer from its underlying fixed-width
unsigned integer and extracting it back is a total, lossless round-trip, for
both the 32-bit and the 64-bit variants. -/
theorem C5_round_trip (a b : Nat) (h32 : a < U32_MOD) (h64 : b < U64_MOD) :
    (RawPtr32.from_u32 a).into_u32 = a ∧ (RawPtr64.from_u64 b).into_u64 = b := by
  simp only [RawPtr32.from_u32, RawPtr32.into_u32, RawPtr64.from_u64, RawPtr64.into_u64,
    U32_MOD, U64_MOD] at *
  omega

/-- Witness for C5 at `a = 0xDEADBEEF` and `b = 0x123456789ABCDEF0`. -/
theorem C5_witness :
    0xDEADBEEF < U32_MOD ∧ 0x123456789ABCDEF0 < U64_MOD ∧
      ((RawPtr32.from_u32 0xDEADBEEF).into_u32 = 0xDEADBEEF ∧
        (RawPtr64.from_u64 0x123456789ABCDEF0).into_u64 = 0x123456789ABCDEF0) :=
  ⟨by decide, by decide, C5_round_trip 0xDEADBEEF 0x123456789ABCDEF0 (by decide) (by decide)⟩

/-- Claim C6: raw-pointer offset is total and wraps modulo `2^width`: for
every raw pointer and every integer byte count the resulting address is the
canonical representative of `into_integer + n` modulo `2^width`, for both
widths; in particular `RawPtr32::from_integer(0xFFFFFFFF).offset(1)` is
address `0`. -/
theorem C6_offset_wraps (p : RawPtr32) (q : RawPtr64) (n m : Int) :
    ((p.offset n).into_u32 : Int) = ((p.into_u32 : Int) + n) % (U32_MOD : Int) ∧
      ((q.offset m).into_u64 : Int) = ((q.into_u64 : Int) + m) % (U64_MOD : Int) ∧
      ((RawPtr32.from_u32 0xFFFFFFFF).offset 1).into_u32 = 0 :=
  ⟨RawPtr32.offset_address32 p n, RawPtr64.offset_address64 q m, by decide⟩

/-- Claim C7: typed-pointer difference is the signed byte difference of the
two addresses divided by `size_of(T)` with truncation toward zero
(`Int.tdiv`), for both widths; a non-multiple byte delta is not an error:
size-4 elements 10 bytes apart give difference `2`, and in the other
direction `-2` (toward zero, not `-3`). -/
theorem C7_difference_truncating (T : Type) [Pod T] (p q : TypePtr32 T) (r s : TypePtr64 T) :
    p.difference q = Int.tdiv ((p.into_raw).difference (q.into_raw)) (Pod.size T : Int) ∧
      r.difference s = Int.tdiv ((r.into_raw).difference (s.into_raw)) (Pod.size T : Int) ∧
      (TypePtr32.from_u32 Elem4 110).difference (TypePtr32.from_u32 Elem4 100) = 2 ∧
      (TypePtr32.from_u32 Elem4 100).difference (TypePtr32.from_u32 Elem4 110) = -2 :=
  ⟨rfl, rfl, by decide, by decide⟩

/-- Claim C8: offset and difference are inverse when no wraparound occurs:
if `into_integer + n` stays inside `[0, 2^width)` then
`p.offset(n).difference(p) = n`, for both widths. -/
theorem C8_offset_difference_inverse (p : RawPtr32) (q : RawPtr64) (n m : Int)
    (h32 : 0 ≤ (p.into_u32 : Int) + n ∧ (p.into_u32 : Int) + n < (U32_MOD : Int))
    (h64 : 0 ≤ (q.into_u64 : Int) + m ∧ (q.into_u64 : Int) + m < (U64_MOD : Int)) :
    (p.offset n).difference p = n ∧ (q.offset m).difference q = m := by
  simp only [RawPtr32.offset, RawPtr32.difference, RawPtr32.into_u32, RawPtr64.offset,
    RawPtr64.difference, RawPtr64.into_u64, U32_MOD, U64_MOD, Nat.cast_ofNat] at *
  omega

/-- Witness for C8: offsetting address 100 by 23 bytes and taking the
difference recovers 23, in both widths. -/
theorem C8_witness :
    (0 ≤ ((RawPtr32.from_u32 100).into_u32 : Int) + 23 ∧
        ((RawPtr32.from_u32 100).into_u32 : Int) + 23 < (U32_MOD : Int)) ∧
      (0 ≤ ((RawPtr64.from_u64 100).into_u64 : Int) + 23 ∧
        ((RawPtr64.from_u64 100).into_u64 : Int) + 23 < (U64_MOD : Int)) ∧
      (((RawPtr32.from_u32 100).offset 23).difference (RawPtr32.from_u32 100) = 23 ∧
        ((RawPtr64.from_u64 100).offset 23).difference (RawPtr64.from_u64 100) = 23) :=
  ⟨⟨by decide, by decide⟩, ⟨by decide, by decide⟩,
    C8_offset_difference_inverse (RawPtr32.from_u32 100) (RawPtr64.from_u64 100) 23 23
      ⟨by decide, by decide⟩ ⟨by decide, by decide⟩⟩

/-- Claim C9: typed-pointer offset matches scaled byte arithmetic: for a Pod
payload of size `S`, `p.offset(n).into_integer()` is the canonical
representative of `p.into_integer() + n * S` modulo `2^width`, for both
widths. -/
theorem C9_typed_offset_scaled (T : Type) [Pod T] (p : TypePtr32 T) (q : TypePtr64 T)
    (n m : Int) :
    ((p.offset n).into_u32 : Int) =
        ((p.into_u32 : Int) + n * (Pod.size T : Int)) % (U32_MOD : Int) ∧
      ((q.offset m).into_u64 : Int) =
        ((q.into_u64 : Int) + m * (Pod.size T : Int)) % (U64_MOD : Int) := by
  constructor
  · simp only [TypePtr32.offset, TypePtr32.into_u32]
    exact Int.toNat_of_nonneg (Int.emod_nonneg _ (by norm_num [U32_MOD]))
  · simp only [TypePtr64.offset, TypePtr64.into_u64]
    exact Int.toNat_of_nonneg (Int.emod_nonneg _ (by norm_num [U64_MOD]))

/-- Claim C10: on the 64-bit host the native-width bridge of the 64-bit
pointer types (`NativePtr for RawPtr64` and `TypePtr64<T>`, mod.rs lines
62-79) is a lossless bijection: `from_usize` inverts `into_usize` on
pointers, and `into_usize` inverts `from_usize` on every `usize` value. -/
theorem C10_native_bridge_bijection (T : Type) (p : RawPtr64) (q : TypePtr64 T) (a : Nat)
    (hp : p.into_u64 < U64_MOD) (hq : q.into_u64 < U64_MOD) (ha : a < U64_MOD) :
    RawPtr64.from_usize p.into_usize = p ∧
      TypePtr64.from_usize T q.into_usize = q ∧
      (RawPtr64.from_usize a).into_usize = a ∧
      (TypePtr64.from_usize T a).into_usize = a := by
  obtain ⟨pa⟩ := p
  obtain ⟨qa⟩ := q
  simp only [RawPtr64.from_usize, RawPtr64.from_u64, RawPtr64.into_usize, RawPtr64.into_u64,
    TypePtr64.from_usize, TypePtr64.from_u64, TypePtr64.into_usize, TypePtr64.into_u64,
    RawPtr64.mk.injEq, TypePtr64.mk.injEq, U64_MOD] at *
  omega

/-- Witness for C10 at `T = Elem4`, pointers at addresses 5 and 6, and the
`usize` value 7. -/
theorem C10_witness :
    (RawPtr64.from_u64 5).into_u64 < U64_MOD ∧
      (TypePtr64.from_u64 Elem4 6).into_u64 < U64_MOD ∧ 7 < U64_MOD ∧
      (RawPtr64.from_usize (RawPtr64.from_u64 5).into_usize = RawPtr64.from_u64 5 ∧
        TypePtr64.from_usize Elem4 (TypePtr64.from_u64 Elem4 6).into_usize =
          TypePtr64.from_u64 Elem4 6 ∧
        (RawPtr64.from_usize 7).into_usize = 7 ∧
        (TypePtr64.from_usize Elem4 7).into_usize = 7) :=
  ⟨by decide, by decide, by decide,
    C10_native_bridge_bijection Elem4 (RawPtr64.from_u64 5) (TypePtr64.from_u64 Elem4 6) 7
      (by decide) (by decide) (by decide)⟩

end External
